import Mathlib

/-!
Verification of the asynchronous task orchestration subsystem of the
OfficeTools repository (FastAPI backend offering speech transcription,
image OCR and PDF-to-Word conversion).

The Python sources under `backend/app` are shallowly embedded below:
pure computations become Lean functions over `String`, `ℚ`, `ℤ`, `ℕ` and
lists; the mutable per-router task dictionaries and the file system become
explicit state (`Store`, `FsState`); the background workers become
functions from an abstract failure injection (which fallible statement of
the `try` block raises, if any) to the chronological list of task-record
states observable at `await` boundaries plus the resulting file-system
state.  FastAPI `BackgroundTasks` coroutines run on the single-threaded
event loop, so store mutations between two `await` points are atomic with
respect to any other request handler; the observable trace therefore
contains one entry per suspension region, not one per Python statement.
-/

namespace OfficeTools

/-! ## Task records and stores (`tasks_store` dictionaries, `schemas.TaskStatus`) -/

/-- The `status` strings stored in the task dictionaries:
`"pending"`, `"processing"`, `"completed"`, `"failed"`. -/
inductive Status where
  | pending
  | processing
  | completed
  | failed
deriving DecidableEq, Repr

/-- Is the status terminal (`completed` or `failed`)? -/
def Status.isTerminal : Status → Bool
  | .completed => true
  | .failed => true
  | _ => false

/-- One entry of a router's `tasks_store` dictionary, as exposed through the
`TaskStatus` pydantic model: `task_id`, `status`, `progress`, `message`, and
an optional capability-specific `result` dictionary (absent key = `none`). -/
structure TaskRecord (ρ : Type) where
  task_id : String
  status : Status
  progress : ℚ
  message : String
  result : Option ρ
deriving DecidableEq, Repr

/-- A router's module-level `tasks_store : dict` mapping task ids to records. -/
abbrev Store (ρ : Type) := String → Option (TaskRecord ρ)

/-- `tasks_store[task_id] = record` (dictionary update). -/
def setTask {ρ : Type} (store : Store ρ) (id : String) (rec : TaskRecord ρ) : Store ρ :=
  fun k => if k = id then some rec else store k

/-- The empty task dictionary. -/
def emptyStore (ρ : Type) : Store ρ := fun _ => none

/-- The file system, abstracted to which paths currently exist
(`os.path.exists`). -/
abbrev FsState := String → Bool

/-- Creating/overwriting the file at `p` (a completed write). -/
def setFile (fs : FsState) (p : String) : FsState :=
  fun q => if q = p then true else fs q

/-- `os.remove p` (successful deletion). -/
def rmFile (fs : FsState) (p : String) : FsState :=
  fun q => if q = p then false else fs q

/-- The record inserted by every async submission endpoint:
`{"task_id": task_id, "status": "pending", "progress": 0.0,
"message": "任务已创建"}` (no `result` key). -/
def mkPendingRecord (ρ : Type) (id : String) : TaskRecord ρ :=
  { task_id := id, status := .pending, progress := 0, message := "任务已创建",
    result := none }

/-! ## Small Python primitives used by the sources -/

/-- Model of `os.path.splitext` restricted to plain file names (no directory
separators, as used on `file.filename`): the extension starts at the last
dot that has some non-dot character before it; otherwise the extension is
empty (so `".bashrc"` has no extension, `"a.xyz"` has extension `".xyz"`). -/
def splitext (name : String) : String × String :=
  let cs := name.data
  let dotIdxs := (List.range cs.length).filter
    (fun i => cs.getD i ' ' == '.' && (List.range i).any (fun j => cs.getD j ' ' != '.'))
  match dotIdxs.getLast? with
  | none => (name, "")
  | some i => (⟨cs.take i⟩, ⟨cs.drop i⟩)

/-- Python `round(x)` on exact rationals: round half to even (banker's
rounding), which is the CPython builtin's tie rule. -/
def pyRound (x : ℚ) : ℤ :=
  let f : ℤ := ⌊x⌋
  let frac : ℚ := x - (f : ℚ)
  if frac < 1/2 then f
  else if (1:ℚ)/2 < frac then f + 1
  else if f % 2 = 0 then f else f + 1

/-- Python `round(x, 4)` on exact rationals. -/
def round4 (x : ℚ) : ℚ := (pyRound (x * 10000) : ℚ) / 10000

/-- Python `str.lower()` restricted to ASCII (the strings it is applied to
here are file extensions): maps A–Z to a–z. -/
def lowerChar (c : Char) : Char :=
  if 'A' ≤ c ∧ c ≤ 'Z' then Char.ofNat (c.toNat + 32) else c

/-- Python `str.lower()` on a whole string (ASCII). -/
def lowerStr (s : String) : String := ⟨s.data.map lowerChar⟩

/-! ## `services/ocr_service.py` — `OcrService.recognize`

The PaddleOCR backend call `self._ocr.ocr(image_path, cls=True)` is the
external collaborator: its output `result[0]` is abstracted as
`Option (List (Option RawOcrLine))` (`none` when `result` or `result[0]`
is falsy; `none` list entries are the `line is None` rows the loop skips).
Wall-clock `duration` is abstracted as a parameter. -/

/-- One raw PaddleOCR line: `line[0]` is the box polygon,
`line[1][0]` the text, `line[1][1]` the confidence. -/
structure RawOcrLine where
  box : List (List ℚ)
  text : String
  confidence : ℚ
deriving DecidableEq, Repr

/-- The lines actually iterated by the parsing loop of `recognize`:
nothing when the backend result is falsy, and `None` rows are skipped. -/
def detectedLines (raw : Option (List (Option RawOcrLine))) : List RawOcrLine :=
  match raw with
  | none => []
  | some ls => ls.reduceOption

/-- One entry of the `results` list built by `recognize`
(`text`, `box`, `confidence` rounded to 4 decimals). -/
structure OcrLineOut where
  text : String
  box : List (List ℚ)
  confidence : ℚ
deriving DecidableEq, Repr

/-- The dictionary returned by `OcrService.recognize`. -/
structure OcrServiceResult where
  text : String
  results : List OcrLineOut
  confidence : ℚ
  duration : ℚ
deriving DecidableEq, Repr

/-- `OcrService.recognize`: join the detected texts with newlines, keep the
per-line entries, and report `round(total_confidence / text_count, 4)` when
at least one line was detected and `round(0, 4) = 0` otherwise. -/
def OcrService.recognize (raw : Option (List (Option RawOcrLine))) (duration : ℚ) :
    OcrServiceResult :=
  let lines := detectedLines raw
  let totalConfidence : ℚ := (lines.map (fun l => l.confidence)).sum
  let textCount : ℕ := lines.length
  let avgConfidence : ℚ := if 0 < textCount then totalConfidence / (textCount : ℚ) else 0
  { text := String.intercalate "\n" (lines.map (fun l => l.text)),
    results := lines.map (fun l =>
      { text := l.text, box := l.box, confidence := round4 l.confidence }),
    confidence := round4 avgConfidence,
    duration := duration }

/-! ## `services/asr_service.py` — `AsrService.transcribe`

The Whisper backend call `self._model.transcribe(...)` is the external
collaborator; its raw output dictionary is `WhisperRaw`.  The guard
`if not self.is_available(): raise` and the thread-pool offloading of
`transcribe_async` do not change the computed value and are modeled at the
endpoint level. -/

/-- One raw Whisper segment (`start`, `end`, `text`). -/
structure RawSegment where
  start : ℚ
  endPos : ℚ
  text : String
deriving DecidableEq, Repr

/-- The raw Whisper result dictionary: `result["text"]`,
`result.get("language", ...)` (`none` when the key is absent) and
`result.get("segments", [])`. -/
structure WhisperRaw where
  text : String
  language : Option String
  segments : List RawSegment
deriving DecidableEq, Repr

/-- The dictionary returned by `AsrService.transcribe`. -/
structure AsrServiceResult where
  text : String
  language : String
  segments : List RawSegment
  duration : ℚ
deriving DecidableEq, Repr

/-- `AsrService.transcribe`: when `language` is unspecified it falls back to
`config.asr["language"]` (default `"zh"`); the result text and each segment
text are stripped; the reported language is `result.get("language", language)`. -/
def AsrService.transcribe (raw : WhisperRaw) (language : Option String)
    (configLanguage : String) (duration : ℚ) : AsrServiceResult :=
  let effLanguage := language.getD configLanguage
  { text := raw.text.trim,
    language := raw.language.getD effLanguage,
    segments := raw.segments.map (fun s =>
      { start := s.start, endPos := s.endPos, text := s.text.trim }),
    duration := duration }

/-! ## `services/pdf_service.py` — `PdfService.convert`

The `pdf2docx.Converter` is the external collaborator: `cv.fitz_doc.page_count`
is the parameter `pageCount`, and `cv.convert(output_path, start=s, end=e, dpi)`
converts exactly the pages `p` with `s ≤ p < e` (half-open, the fitz page
range convention the source compensates for by passing `end_page + 1`).
The `.docx` document it produces is abstracted as `DocxDoc`. -/

/-- The produced Word document as seen by `_count_words`: paragraph texts
and table cell texts. -/
structure DocxDoc where
  paragraphs : List String
  tables : List (List (List String))
deriving DecidableEq, Repr

/-- `PdfService._count_words`: sum of `len(paragraph.text)` over paragraphs
plus `len(cell.text)` over all table cells. -/
def PdfService.countWords (doc : DocxDoc) : ℕ :=
  (doc.paragraphs.map String.length).sum +
    (doc.tables.map (fun t =>
      (t.map (fun row => (row.map String.length).sum)).sum)).sum

/-- The dictionary returned by `PdfService.convert`. -/
structure PdfConvertServiceResult where
  output_path : String
  page_count : ℕ
  converted_pages : ℤ
  word_count : ℕ
  duration : ℚ
deriving DecidableEq, Repr

/-- The integer interval `[start, stop)` as a list, in order. -/
def pageSpan (start stop : ℤ) : List ℤ :=
  (List.range (stop - start).toNat).map (fun (i : ℕ) => start + (i : ℤ))

/-- `PdfService.convert`: `end_page` defaults to `page_count - 1`; the
backend is asked for pages `start_page .. end_page + 1` (half-open) and the
result reports `converted_pages = end_page - start_page + 1`. -/
def PdfService.convert (outputPath : String) (startPage : ℤ) (endPage : Option ℤ)
    (dpi : ℤ) (pageCount : ℕ) (producedDoc : DocxDoc) (duration : ℚ) :
    PdfConvertServiceResult :=
  let effEnd : ℤ := endPage.getD ((pageCount : ℤ) - 1)
  let _ := dpi
  { output_path := outputPath,
    page_count := pageCount,
    converted_pages := effEnd - startPage + 1,
    word_count := PdfService.countWords producedDoc,
    duration := duration }

/-- The page range handed to `cv.convert(output_path, start=start_page,
end=end_page + 1, dpi=dpi)`, i.e. the pages actually converted. -/
def PdfService.convertedSpan (startPage : ℤ) (endPage : Option ℤ) (pageCount : ℕ) :
    List ℤ :=
  pageSpan startPage ((endPage.getD ((pageCount : ℤ) - 1)) + 1)

/-! ## Response payloads (`models/schemas.py` and the per-router `result` dicts) -/

/-- `schemas.OcrResult` — one element of the sync recognition payload. -/
structure OcrResult where
  text : String
  boxes : List (List ℚ)
  confidence : ℚ
deriving DecidableEq, Repr

/-- `schemas.AsrResult` — the sync transcription payload. -/
structure AsrResult where
  text : String
  language : String
  duration : ℚ
deriving DecidableEq, Repr

/-- `schemas.PdfConvertResult` — the sync conversion payload. -/
structure PdfConvertResult where
  output_path : String
  page_count : ℕ
  word_count : ℕ
deriving DecidableEq, Repr

/-- The `result` dict stored by `process_ocr_task` on completion. -/
structure OcrTaskResult where
  text : String
  confidence : ℚ
  duration : ℚ
  output_file : String
deriving DecidableEq, Repr

/-- The `result` dict stored by `process_asr_task` on completion. -/
structure AsrTaskResult where
  text : String
  language : String
  duration : ℚ
  output_file : String
deriving DecidableEq, Repr

/-- The `result` dict stored by `process_pdf_task` on completion. -/
structure PdfTaskResult where
  output_path : String
  page_count : ℕ
  word_count : ℕ
deriving DecidableEq, Repr

/-- The `data` list built by the sync endpoint `recognize_image` from the
service result (`OcrResult(text=r["text"], boxes=r["box"],
confidence=r["confidence"])` for each entry of `result["results"]`). -/
def ocrSyncData (res : OcrServiceResult) : List OcrResult :=
  res.results.map (fun r => { text := r.text, boxes := r.box, confidence := r.confidence })

/-- The `result` dict stored by `process_ocr_task` from the service result. -/
def ocrAsyncResult (res : OcrServiceResult) (outputFile : String) : OcrTaskResult :=
  { text := res.text, confidence := res.confidence, duration := res.duration,
    output_file := outputFile }

/-- The `data` payload built by the sync endpoint `transcribe_audio`. -/
def asrSyncData (res : AsrServiceResult) : AsrResult :=
  { text := res.text, language := res.language, duration := res.duration }

/-- The `result` dict stored by `process_asr_task`. -/
def asrAsyncResult (res : AsrServiceResult) (outputFile : String) : AsrTaskResult :=
  { text := res.text, language := res.language, duration := res.duration,
    output_file := outputFile }

/-- The `data` payload built by the sync endpoint `convert_pdf`: note it
reports the bare generated file name `output_name`, not the full path. -/
def pdfSyncData (res : PdfConvertServiceResult) (outputName : String) : PdfConvertResult :=
  { output_path := outputName, page_count := res.page_count, word_count := res.word_count }

/-- The `result` dict stored by `process_pdf_task`: it reports
`result["output_path"]`, the full output path. -/
def pdfAsyncResult (res : PdfConvertServiceResult) : PdfTaskResult :=
  { output_path := res.output_path, page_count := res.page_count,
    word_count := res.word_count }

/-! ## Background workers (`process_ocr_task`, `process_asr_task`, `process_pdf_task`)

Each worker is one `try` block; its fallible statements are the backend
call, the output write (`os.makedirs` + `aiofiles` write, which leave the
same observable record when they raise) and the guarded
`os.remove(input)`.  A run is parametrized by which of these raises, with
the raised exception's `str`.  Any exception jumps to the `except` clause,
which sets `status = "failed"` and `message = str(e)` and touches nothing
else.  The returned list is the chronological sequence of record states
observable at `await` boundaries, starting from the pending record the
submission endpoint inserted; the returned `FsState` is the final file
system. -/

/-- Failure injection for the OCR/ASR workers. -/
inductive IoFail where
  | atBackend (err : String)
  | atOutputWrite (err : String)
  | atInputRemove (err : String)
  | ok
deriving DecidableEq, Repr

/-- Failure injection for the PDF worker (the backend call itself writes
the output, so there is no separate output-write step). -/
inductive PdfFail where
  | atBackend (err : String)
  | atInputRemove (err : String)
  | ok
deriving DecidableEq, Repr

/-- `process_ocr_task`.  Observable trace: the pending record; then
`status="processing", progress=0.3` (visible while the backend call is
awaited); then `progress=0.8` (visible while the output file write is
awaited); then the terminal record.  The completed fields and the input
removal happen in one synchronous stretch, so when the removal raises the
intermediate completed record is never observable. -/
def process_ocr_task (id imagePath outputFile : String)
    (raw : Option (List (Option RawOcrLine))) (duration : ℚ)
    (fail : IoFail) (fs : FsState) :
    List (TaskRecord OcrTaskResult) × FsState :=
  let rec0 := mkPendingRecord OcrTaskResult id
  let rec1 := { rec0 with status := .processing, progress := 3/10 }
  match fail with
  | .atBackend err => ([rec0, rec1, { rec1 with status := .failed, message := err }], fs)
  | fail =>
    let res := OcrService.recognize raw duration
    let rec2 := { rec1 with progress := 8/10 }
    match fail with
    | .atOutputWrite err =>
        ([rec0, rec1, rec2, { rec2 with status := .failed, message := err }], fs)
    | fail =>
      let fsW := setFile fs outputFile
      let rec3 := { rec2 with
        status := .completed, progress := 1,
        result := some (ocrAsyncResult res outputFile) }
      match fail with
      | .atInputRemove err =>
          if fsW imagePath then
            ([rec0, rec1, rec2, { rec3 with status := .failed, message := err }], fsW)
          else ([rec0, rec1, rec2, rec3], fsW)
      | _ => ([rec0, rec1, rec2, rec3], rmFile fsW imagePath)

/-- `process_asr_task` — same shape as the OCR worker with the Whisper
backend and the ASR result dict. -/
def process_asr_task (id audioPath outputFile : String)
    (raw : WhisperRaw) (language : Option String) (configLanguage : String)
    (duration : ℚ) (fail : IoFail) (fs : FsState) :
    List (TaskRecord AsrTaskResult) × FsState :=
  let rec0 := mkPendingRecord AsrTaskResult id
  let rec1 := { rec0 with status := .processing, progress := 3/10 }
  match fail with
  | .atBackend err => ([rec0, rec1, { rec1 with status := .failed, message := err }], fs)
  | fail =>
    let res := AsrService.transcribe raw language configLanguage duration
    let rec2 := { rec1 with progress := 8/10 }
    match fail with
    | .atOutputWrite err =>
        ([rec0, rec1, rec2, { rec2 with status := .failed, message := err }], fs)
    | fail =>
      let fsW := setFile fs outputFile
      let rec3 := { rec2 with
        status := .completed, progress := 1,
        result := some (asrAsyncResult res outputFile) }
      match fail with
      | .atInputRemove err =>
          if fsW audioPath then
            ([rec0, rec1, rec2, { rec3 with status := .failed, message := err }], fsW)
          else ([rec0, rec1, rec2, rec3], fsW)
      | _ => ([rec0, rec1, rec2, rec3], rmFile fsW audioPath)

/-- `process_pdf_task`: `status="processing", progress=0.1`, then the
awaited conversion (which writes the output file), then in one synchronous
stretch the completed fields and the guarded input removal. -/
def process_pdf_task (id pdfPath outputPath : String)
    (startPage : Option ℤ) (endPage : Option ℤ) (dpi : ℤ)
    (pageCount : ℕ) (producedDoc : DocxDoc) (duration : ℚ)
    (fail : PdfFail) (fs : FsState) :
    List (TaskRecord PdfTaskResult) × FsState :=
  let rec0 := mkPendingRecord PdfTaskResult id
  let rec1 := { rec0 with status := .processing, progress := 1/10 }
  match fail with
  | .atBackend err => ([rec0, rec1, { rec1 with status := .failed, message := err }], fs)
  | fail =>
    let res := PdfService.convert outputPath (startPage.getD 0) endPage dpi
      pageCount producedDoc duration
    let fsW := setFile fs outputPath
    let rec2 := { rec1 with
      status := .completed, progress := 1,
      result := some (pdfAsyncResult res) }
    match fail with
    | .atInputRemove err =>
        if fsW pdfPath then
          ([rec0, rec1, { rec2 with status := .failed, message := err }], fsW)
        else ([rec0, rec1, rec2], fsW)
    | _ => ([rec0, rec1, rec2], rmFile fsW pdfPath)

/-! ## HTTP endpoints (`routers/ocr.py`, `routers/asr.py`, `routers/pdf2word.py`) -/

/-- An endpoint outcome: a successful JSON body or a raised
`HTTPException(status_code, ...)`. -/
inductive SyncOutcome (α : Type) where
  | ok (value : α)
  | httpError (code : ℕ)
deriving DecidableEq, Repr

/-- A download endpoint outcome: a `FileResponse` serving the named path
in full, or a raised `HTTPException`. -/
inductive DownloadOutcome where
  | file (path : String)
  | httpError (code : ℕ)
deriving DecidableEq, Repr

/-- `ALLOWED_EXTENSIONS` of `routers/ocr.py`. -/
def ALLOWED_EXTENSIONS : List String :=
  [".jpg", ".jpeg", ".png", ".bmp", ".tiff", ".tif", ".webp", ".gif"]

/-- State touched by the sync recognition endpoint, plus whether the OCR
backend was invoked during the request. -/
structure OcrSyncRun where
  response : SyncOutcome (List OcrResult)
  fs : FsState
  backendCalled : Bool

/-- `recognize_image` (sync OCR endpoint), exception-free run: 503 when the
service is unavailable, then 400 when `splitext(filename)[1].lower()` is not
an allowed extension — both before any file write or backend call; otherwise
save the upload, call the backend, write the output text file, remove the
upload, and answer with the per-line payload.  (The surrounding
`try/except` that converts an exception into HTTP 500 concerns no claim and
is not modeled; `savedPath` and `outputFile` stand for the generated
uuid-named paths.) -/
def recognize_image (avail : Bool) (filename savedPath outputFile : String)
    (raw : Option (List (Option RawOcrLine))) (duration : ℚ) (fs : FsState) :
    OcrSyncRun :=
  if !avail then ⟨.httpError 503, fs, false⟩
  else if lowerStr (splitext filename).2 ∈ ALLOWED_EXTENSIONS then
    let fs1 := setFile fs savedPath
    let res := OcrService.recognize raw duration
    let fs2 := setFile fs1 outputFile
    let fs3 := rmFile fs2 savedPath
    ⟨.ok (ocrSyncData res), fs3, true⟩
  else ⟨.httpError 400, fs, false⟩

/-- State produced by an async submission endpoint. -/
structure AsyncSubmitRun (ρ : Type) where
  response : SyncOutcome (TaskRecord ρ)
  fs : FsState
  store : Store ρ
  scheduled : Bool

/-- `recognize_image_async` (async OCR submission): 503 when unavailable;
otherwise it saves the upload, inserts the pending record and schedules
`process_ocr_task` — with no extension validation of any kind. -/
def recognize_image_async (avail : Bool) (savedPath id : String)
    (store : Store OcrTaskResult) (fs : FsState) : AsyncSubmitRun OcrTaskResult :=
  if !avail then ⟨.httpError 503, fs, store, false⟩
  else
    let fs1 := setFile fs savedPath
    let rec0 := mkPendingRecord OcrTaskResult id
    ⟨.ok rec0, fs1, setTask store id rec0, true⟩

/-- `transcribe_audio_async` (async ASR submission) — same shape; note the
sync and async ASR endpoints validate no file extension either. -/
def transcribe_audio_async (avail : Bool) (savedPath id : String)
    (store : Store AsrTaskResult) (fs : FsState) : AsyncSubmitRun AsrTaskResult :=
  if !avail then ⟨.httpError 503, fs, store, false⟩
  else
    let fs1 := setFile fs savedPath
    let rec0 := mkPendingRecord AsrTaskResult id
    ⟨.ok rec0, fs1, setTask store id rec0, true⟩

/-- `convert_pdf_async` (async PDF submission): 503 when unavailable,
otherwise save and schedule — the `.pdf` filename check exists only in the
sync `convert_pdf` endpoint. -/
def convert_pdf_async (avail : Bool) (savedPath id : String)
    (store : Store PdfTaskResult) (fs : FsState) : AsyncSubmitRun PdfTaskResult :=
  if !avail then ⟨.httpError 503, fs, store, false⟩
  else
    let fs1 := setFile fs savedPath
    let rec0 := mkPendingRecord PdfTaskResult id
    ⟨.ok rec0, fs1, setTask store id rec0, true⟩

/-- `get_task_status` — identical in the three routers, each over its own
module-level `tasks_store`: 404 when the id is unknown, else the record. -/
def get_task_status {ρ : Type} (store : Store ρ) (id : String) :
    SyncOutcome (TaskRecord ρ) :=
  match store id with
  | none => .httpError 404
  | some t => .ok t

/-- The ASR and OCR `download_result` endpoints, identical up to the result
type: 404 when the task id is unknown; 400 when its status is not
`"completed"`; then `output_file = task["result"].get("output_file")` and
404 when that is falsy or the file does not exist; otherwise a
`FileResponse` of the whole file.  (A completed record without a `result`
key would raise `KeyError`, surfacing as HTTP 500; reachable stores never
contain one.) -/
def download_result_by_task {ρ : Type} (getOut : ρ → String)
    (store : Store ρ) (fs : FsState) (id : String) : DownloadOutcome :=
  match store id with
  | none => .httpError 404
  | some task =>
    if task.status ≠ .completed then .httpError 400
    else
      match task.result with
      | none => .httpError 500
      | some r =>
        if getOut r = "" then .httpError 404
        else if !fs (getOut r) then .httpError 404
        else .file (getOut r)

/-- `routers/asr.py` `download_result`. -/
def asr_download_result (store : Store AsrTaskResult) (fs : FsState) (id : String) :
    DownloadOutcome :=
  download_result_by_task AsrTaskResult.output_file store fs id

/-- `routers/ocr.py` `download_result`. -/
def ocr_download_result (store : Store OcrTaskResult) (fs : FsState) (id : String) :
    DownloadOutcome :=
  download_result_by_task OcrTaskResult.output_file store fs id

/-- `routers/pdf2word.py` `download_result`: the route parameter is a
file name, not a task id; the task store is never consulted and there is no
status check — the endpoint serves `outputs/<filename>` whenever that path
exists and answers 404 otherwise. -/
def pdf_download_result (outputsDir : String) (fs : FsState) (filename : String) :
    DownloadOutcome :=
  let path := outputsDir ++ "/" ++ filename
  if !fs path then .httpError 404
  else .file path

/-- Does a download outcome serve a file? -/
def DownloadOutcome.succeeds : DownloadOutcome → Bool
  | .file _ => true
  | .httpError _ => false

/-! ## Service facade construction and availability
(`asr_service.py`, `ocr_service.py`, `pdf_service.py`)

The Python runtime environment is abstracted to the facts the three
`_load_model` / `is_available` bodies branch on: whether each backend
package imports, whether its model loads, and whether an ffmpeg binary
answers the probe.  `AvailProbe.attemptedBackendLoad` records whether the
`is_available` call itself executed a backend import / external probe
(rather than reading state cached at construction). -/

/-- The process environment at some instant. -/
structure PyEnv where
  pdf2docxImportable : Bool
  whisperImportable : Bool
  whisperLoadOk : Bool
  ffmpegWorks : Bool
  paddleImportable : Bool
  paddleLoadOk : Bool
deriving DecidableEq, Repr

/-- `AsrService` cached state: `_model` and `_ffmpeg_available`. -/
structure AsrState where
  model : Option Unit
  ffmpegCached : Option Bool
deriving DecidableEq, Repr

/-- `OcrService` cached state: `_ocr`. -/
structure OcrState where
  ocr : Option Unit
deriving DecidableEq, Repr

/-- `AsrService._load_model`, run once at first construction: on
`import whisper` failure nothing is cached; otherwise `_check_ffmpeg`
caches its probe result and the model handle is `None` exactly when both
the local and the network load raise. -/
def AsrService.load (env : PyEnv) : AsrState :=
  if env.whisperImportable then
    { model := if env.whisperLoadOk then some () else none,
      ffmpegCached := some env.ffmpegWorks }
  else { model := none, ffmpegCached := none }

/-- `OcrService._load_model`: `_ocr = None` when `import paddleocr` or
`PaddleOCR(lang=lang)` raises. -/
def OcrService.load (env : PyEnv) : OcrState :=
  { ocr := if env.paddleImportable && env.paddleLoadOk then some () else none }

/-- What an `is_available` call answered and whether it executed a
backend import or external probe during the call. -/
structure AvailProbe where
  value : Bool
  attemptedBackendLoad : Bool
deriving DecidableEq, Repr

/-- `PdfService.is_available`: the body is `try: import pdf2docx; return
True except ImportError: return False` — it executes the import on every
call and caches nothing, so its value tracks the current environment. -/
def PdfService.is_available (envNow : PyEnv) : AvailProbe :=
  ⟨envNow.pdf2docxImportable, true⟩

/-- `OcrService.is_available`: `return self._ocr is not None`. -/
def OcrService.is_available (st : OcrState) : AvailProbe :=
  ⟨st.ocr.isSome, false⟩

/-- `AsrService.is_available`: `return self._model is not None and
self._check_ffmpeg()`.  The conjunction short-circuits, and
`_check_ffmpeg` re-probes (subprocess call) only when `_ffmpeg_available`
was never cached — unreachable for a state built by `AsrService.load`
with a loaded model. -/
def AsrService.is_available (st : AsrState) (envNow : PyEnv) : AvailProbe :=
  if st.model.isSome then
    match st.ffmpegCached with
    | some b => ⟨b, false⟩
    | none => ⟨envNow.ffmpegWorks, true⟩
  else ⟨false, false⟩

/-! ## JSON view of payloads (the bodies FastAPI serializes)

Used to compare the synchronous response payload with the asynchronous
task `result` across their different shapes. -/

/-- A JSON value. -/
inductive JVal where
  | str (s : String)
  | num (q : ℚ)
  | arr (xs : List JVal)
  | obj (fields : List (String × JVal))

/-- Is the value a JSON array? -/
def JVal.isArr : JVal → Bool
  | .arr _ => true
  | _ => false

/-- Remove the timing field.  In every payload compared here `duration` can
occur only at the top level of an object, so one non-recursive pass
suffices. -/
def stripTiming : JVal → JVal
  | .obj fields => .obj (fields.filter (fun f => f.1 ≠ "duration"))
  | v => v

/-- JSON body of one sync `OcrResult`. -/
def OcrResult.toJ (r : OcrResult) : JVal :=
  .obj [("text", .str r.text),
        ("boxes", .arr (r.boxes.map (fun b => .arr (b.map JVal.num)))),
        ("confidence", .num r.confidence)]

/-- JSON body of the sync recognition payload (a list of line objects). -/
def ocrSyncJson (rs : List OcrResult) : JVal := .arr (rs.map OcrResult.toJ)

/-- JSON body of the async recognition task `result`. -/
def OcrTaskResult.toJ (r : OcrTaskResult) : JVal :=
  .obj [("text", .str r.text), ("confidence", .num r.confidence),
        ("duration", .num r.duration), ("output_file", .str r.output_file)]

/-- JSON body of the sync transcription payload. -/
def AsrResult.toJ (r : AsrResult) : JVal :=
  .obj [("text", .str r.text), ("language", .str r.language),
        ("duration", .num r.duration)]

/-- JSON body of the async transcription task `result`. -/
def AsrTaskResult.toJ (r : AsrTaskResult) : JVal :=
  .obj [("text", .str r.text), ("language", .str r.language),
        ("duration", .num r.duration), ("output_file", .str r.output_file)]

/-- JSON body of the sync conversion payload. -/
def PdfConvertResult.toJ (r : PdfConvertResult) : JVal :=
  .obj [("output_path", .str r.output_path), ("page_count", .num r.page_count),
        ("word_count", .num r.word_count)]

/-- JSON body of the async conversion task `result`. -/
def PdfTaskResult.toJ (r : PdfTaskResult) : JVal :=
  .obj [("output_path", .str r.output_path), ("page_count", .num r.page_count),
        ("word_count", .num r.word_count)]

/-! ## Observation machinery for the lifecycle claims -/

/-- The statuses of a trace of record states, in chronological order. -/
def statusTrace {ρ : Type} (tr : List (TaskRecord ρ)) : List Status :=
  tr.map TaskRecord.status

/-- Collapse adjacent equal statuses: the distinct statuses a poller can
see, in order, when it observes some or all of the trace. -/
def collapse : List Status → List Status
  | [] => []
  | [s] => [s]
  | s :: t :: rest => if s = t then collapse (t :: rest) else s :: collapse (t :: rest)

/-- Once a terminal status appears in the list, every later entry equals it. -/
def terminalStable : List Status → Bool
  | [] => true
  | s :: rest => (!s.isTerminal || rest.all (fun t => t == s)) && terminalStable rest

theorem collapse_cons (s : Status) (r : List Status) :
    ∃ tl, collapse (s :: r) = s :: tl := by
  induction r generalizing s with
  | nil => exact ⟨[], rfl⟩
  | cons t r ih =>
    by_cases h : s = t
    · obtain ⟨tl, htl⟩ := ih t
      exact ⟨tl, by simpa [collapse, h] using htl⟩
    · exact ⟨collapse (t :: r), by simp [collapse, h]⟩

/-- Collapsing a prefix of a trace yields a prefix of the collapsed trace. -/
theorem collapse_prefix {pre l : List Status} (h : pre <+: l) :
    collapse pre <+: collapse l := by
  induction pre generalizing l with
  | nil => simp [collapse]
  | cons s pre ih =>
    obtain ⟨rest, rfl⟩ := h
    cases pre with
    | nil =>
      obtain ⟨tl, htl⟩ := collapse_cons s rest
      exact ⟨tl, by simp [collapse, htl]⟩
    | cons t pre2 =>
      have hpre : (t :: pre2) <+: (t :: (pre2 ++ rest)) := ⟨rest, by simp⟩
      have := ih (l := t :: (pre2 ++ rest)) hpre
      by_cases hst : s = t
      · simpa [collapse, hst] using this
      · have hc : s :: collapse (t :: pre2) <+: s :: collapse (t :: (pre2 ++ rest)) :=
          List.cons_prefix_cons.mpr ⟨rfl, this⟩
        simpa [collapse, hst] using hc

/-- The lifecycle property of one worker-run trace: every observable prefix
shows statuses forming a prefix of `pending → processing → completed` or of
`pending → processing → failed`, and a terminal status is never followed by
a different one. -/
def lifecycleOk (sts : List Status) : Prop :=
  (∀ pre, pre <+: sts →
    collapse pre <+: [.pending, .processing, .completed] ∨
    collapse pre <+: [.pending, .processing, .failed]) ∧
  terminalStable sts = true

theorem lifecycleOk_of_collapse {sts : List Status}
    (h : collapse sts = [.pending, .processing, .completed] ∨
         collapse sts = [.pending, .processing, .failed])
    (hstable : terminalStable sts = true) : lifecycleOk sts := by
  refine ⟨fun pre hpre => ?_, hstable⟩
  have hp := collapse_prefix hpre
  rcases h with h | h
  · exact Or.inl (h ▸ hp)
  · exact Or.inr (h ▸ hp)

theorem ocr_trace_collapse (id imgP outF : String)
    (raw : Option (List (Option RawOcrLine))) (d : ℚ) (fail : IoFail) (fs : FsState) :
    collapse (statusTrace (process_ocr_task id imgP outF raw d fail fs).1)
        = [.pending, .processing, .completed] ∨
    collapse (statusTrace (process_ocr_task id imgP outF raw d fail fs).1)
        = [.pending, .processing, .failed] := by
  cases fail with
  | atBackend err => right; rfl
  | atOutputWrite err => right; rfl
  | atInputRemove err =>
    by_cases h : setFile fs outF imgP
    · right; simp [process_ocr_task, statusTrace, collapse, mkPendingRecord, h]
    · left; simp [process_ocr_task, statusTrace, collapse, mkPendingRecord, h]
  | ok => left; rfl

theorem ocr_trace_stable (id imgP outF : String)
    (raw : Option (List (Option RawOcrLine))) (d : ℚ) (fail : IoFail) (fs : FsState) :
    terminalStable (statusTrace (process_ocr_task id imgP outF raw d fail fs).1) = true := by
  cases fail with
  | atBackend err => rfl
  | atOutputWrite err => rfl
  | atInputRemove err =>
    by_cases h : setFile fs outF imgP
    · simp [process_ocr_task, statusTrace, terminalStable, mkPendingRecord, h,
        Status.isTerminal]
    · simp [process_ocr_task, statusTrace, terminalStable, mkPendingRecord, h,
        Status.isTerminal]
  | ok => rfl

theorem asr_trace_collapse (id audP outF : String) (raw : WhisperRaw)
    (lang : Option String) (cfgLang : String) (d : ℚ) (fail : IoFail) (fs : FsState) :
    collapse (statusTrace (process_asr_task id audP outF raw lang cfgLang d fail fs).1)
        = [.pending, .processing, .completed] ∨
    collapse (statusTrace (process_asr_task id audP outF raw lang cfgLang d fail fs).1)
        = [.pending, .processing, .failed] := by
  cases fail with
  | atBackend err => right; rfl
  | atOutputWrite err => right; rfl
  | atInputRemove err =>
    by_cases h : setFile fs outF audP
    · right; simp [process_asr_task, statusTrace, collapse, mkPendingRecord, h]
    · left; simp [process_asr_task, statusTrace, collapse, mkPendingRecord, h]
  | ok => left; rfl

theorem asr_trace_stable (id audP outF : String) (raw : WhisperRaw)
    (lang : Option String) (cfgLang : String) (d : ℚ) (fail : IoFail) (fs : FsState) :
    terminalStable
      (statusTrace (process_asr_task id audP outF raw lang cfgLang d fail fs).1) = true := by
  cases fail with
  | atBackend err => rfl
  | atOutputWrite err => rfl
  | atInputRemove err =>
    by_cases h : setFile fs outF audP
    · simp [process_asr_task, statusTrace, terminalStable, mkPendingRecord, h,
        Status.isTerminal]
    · simp [process_asr_task, statusTrace, terminalStable, mkPendingRecord, h,
        Status.isTerminal]
  | ok => rfl

theorem pdf_trace_collapse (id pdfP outP : String) (sp ep : Option ℤ) (dpi : ℤ)
    (pc : ℕ) (doc : DocxDoc) (d : ℚ) (fail : PdfFail) (fs : FsState) :
    collapse (statusTrace (process_pdf_task id pdfP outP sp ep dpi pc doc d fail fs).1)
        = [.pending, .processing, .completed] ∨
    collapse (statusTrace (process_pdf_task id pdfP outP sp ep dpi pc doc d fail fs).1)
        = [.pending, .processing, .failed] := by
  cases fail with
  | atBackend err => right; rfl
  | atInputRemove err =>
    by_cases h : setFile fs outP pdfP
    · right; simp [process_pdf_task, statusTrace, collapse, mkPendingRecord, h]
    · left; simp [process_pdf_task, statusTrace, collapse, mkPendingRecord, h]
  | ok => left; rfl

theorem pdf_trace_stable (id pdfP outP : String) (sp ep : Option ℤ) (dpi : ℤ)
    (pc : ℕ) (doc : DocxDoc) (d : ℚ) (fail : PdfFail) (fs : FsState) :
    terminalStable
      (statusTrace (process_pdf_task id pdfP outP sp ep dpi pc doc d fail fs).1) = true := by
  cases fail with
  | atBackend err => rfl
  | atInputRemove err =>
    by_cases h : setFile fs outP pdfP
    · simp [process_pdf_task, statusTrace, terminalStable, mkPendingRecord, h,
        Status.isTerminal]
    · simp [process_pdf_task, statusTrace, terminalStable, mkPendingRecord, h,
        Status.isTerminal]
  | ok => rfl

/-- C1: for every asynchronous task, the sequence of status values observed
over the worker's execution is a prefix of pending, processing, then
exactly one of completed or failed; no other sequence occurs, and once a
task's status is completed or failed it never changes again.  Stated for
the OCR, ASR and PDF workers, over every run (any backend output, any
injected failure, any file system) and every observable prefix of the
run's trace. -/
theorem task_status_lifecycle
    (idO imgP outFO : String) (rawO : Option (List (Option RawOcrLine))) (dO : ℚ)
    (failO : IoFail) (fsO : FsState)
    (idA audP outFA : String) (rawA : WhisperRaw) (lang : Option String)
    (cfgLang : String) (dA : ℚ) (failA : IoFail) (fsA : FsState)
    (idP pdfP outP : String) (sp ep : Option ℤ) (dpi : ℤ) (pc : ℕ)
    (doc : DocxDoc) (dP : ℚ) (failP : PdfFail) (fsP : FsState) :
    lifecycleOk (statusTrace (process_ocr_task idO imgP outFO rawO dO failO fsO).1) ∧
    lifecycleOk
      (statusTrace (process_asr_task idA audP outFA rawA lang cfgLang dA failA fsA).1) ∧
    lifecycleOk
      (statusTrace (process_pdf_task idP pdfP outP sp ep dpi pc doc dP failP fsP).1) :=
  ⟨lifecycleOk_of_collapse (ocr_trace_collapse _ _ _ _ _ _ _)
      (ocr_trace_stable _ _ _ _ _ _ _),
   lifecycleOk_of_collapse (asr_trace_collapse _ _ _ _ _ _ _ _ _)
      (asr_trace_stable _ _ _ _ _ _ _ _ _),
   lifecycleOk_of_collapse (pdf_trace_collapse _ _ _ _ _ _ _ _ _ _ _)
      (pdf_trace_stable _ _ _ _ _ _ _ _ _ _ _)⟩

/-- Witness for `task_status_lifecycle` at a concrete successful OCR run:
the full observed trace collapses to a prefix of one of the two canonical
sequences. -/
theorem task_status_lifecycle_witness :
    collapse (statusTrace
        (process_ocr_task "t1" "uploads/a.png" "outputs/ocr/t1.txt" none 0 .ok
          (fun _ => false)).1)
      <+: [.pending, .processing, .completed] ∨
    collapse (statusTrace
        (process_ocr_task "t1" "uploads/a.png" "outputs/ocr/t1.txt" none 0 .ok
          (fun _ => false)).1)
      <+: [.pending, .processing, .failed] :=
  (task_status_lifecycle "t1" "uploads/a.png" "outputs/ocr/t1.txt" none 0 .ok
      (fun _ => false)
      "t2" "uploads/a.wav" "outputs/asr/t2.txt" ⟨"", none, []⟩ none "zh" 0 .ok
      (fun _ => false)
      "t3" "uploads/a.pdf" "outputs/t3.docx" none none 300 1 ⟨[], []⟩ 0 .ok
      (fun _ => false)).1.1 _ (List.prefix_refl _)

/-! ## C2: result/message discipline of finished tasks -/

/-- The description of the injected failure, if any (`str(e)` of the
exception the `except` clause catches). -/
def IoFail.err? : IoFail → Option String
  | .atBackend e => some e
  | .atOutputWrite e => some e
  | .atInputRemove e => some e
  | .ok => none

/-- Did the failure strike the guarded input removal (the statement that
runs after the completed fields are stored)? -/
def IoFail.isAtInputRemove : IoFail → Bool
  | .atInputRemove _ => true
  | _ => false

/-- As `IoFail.err?`, for the PDF worker. -/
def PdfFail.err? : PdfFail → Option String
  | .atBackend e => some e
  | .atInputRemove e => some e
  | .ok => none

/-- As `IoFail.isAtInputRemove`, for the PDF worker. -/
def PdfFail.isAtInputRemove : PdfFail → Bool
  | .atInputRemove _ => true
  | _ => false

/-- Result/message discipline of a finished task record: completed records
carry a result; failed records carry the exception's description as
message, and a null result provided the failure did not strike the
post-completion input cleanup. -/
def resultFieldsOk {ρ : Type} (err? : Option String) (atCleanup : Bool)
    (rec? : Option (TaskRecord ρ)) : Prop :=
  ∀ rec, rec? = some rec →
    (rec.status = .completed → rec.result.isSome = true) ∧
    (rec.status = .failed →
      (∃ e, err? = some e ∧ rec.message = e) ∧
      (atCleanup = false → rec.result = none))

theorem ocr_result_fields (id imgP outF : String)
    (raw : Option (List (Option RawOcrLine))) (d : ℚ) (fail : IoFail) (fs : FsState) :
    resultFieldsOk fail.err? fail.isAtInputRemove
      ((process_ocr_task id imgP outF raw d fail fs).1.getLast?) := by
  intro rec h
  cases fail <;>
  first
  | (simp only [process_ocr_task, List.getLast?_cons_cons, List.getLast?_singleton,
      Option.some.injEq] at h
     subst h
     simp [IoFail.err?, IoFail.isAtInputRemove, mkPendingRecord])
  | (simp only [process_ocr_task] at h
     split at h <;>
     · simp only [List.getLast?_cons_cons, List.getLast?_singleton,
         Option.some.injEq] at h
       subst h
       simp [IoFail.err?, IoFail.isAtInputRemove, mkPendingRecord])

theorem asr_result_fields (id audP outF : String) (raw : WhisperRaw)
    (lang : Option String) (cfgLang : String) (d : ℚ) (fail : IoFail) (fs : FsState) :
    resultFieldsOk fail.err? fail.isAtInputRemove
      ((process_asr_task id audP outF raw lang cfgLang d fail fs).1.getLast?) := by
  intro rec h
  cases fail <;>
  first
  | (simp only [process_asr_task, List.getLast?_cons_cons, List.getLast?_singleton,
      Option.some.injEq] at h
     subst h
     simp [IoFail.err?, IoFail.isAtInputRemove, mkPendingRecord])
  | (simp only [process_asr_task] at h
     split at h <;>
     · simp only [List.getLast?_cons_cons, List.getLast?_singleton,
         Option.some.injEq] at h
       subst h
       simp [IoFail.err?, IoFail.isAtInputRemove, mkPendingRecord])

theorem pdf_result_fields (id pdfP outP : String) (sp ep : Option ℤ) (dpi : ℤ)
    (pc : ℕ) (doc : DocxDoc) (d : ℚ) (fail : PdfFail) (fs : FsState) :
    resultFieldsOk fail.err? fail.isAtInputRemove
      ((process_pdf_task id pdfP outP sp ep dpi pc doc d fail fs).1.getLast?) := by
  intro rec h
  cases fail <;>
  first
  | (simp only [process_pdf_task, List.getLast?_cons_cons, List.getLast?_singleton,
      Option.some.injEq] at h
     subst h
     simp [PdfFail.err?, PdfFail.isAtInputRemove, mkPendingRecord])
  | (simp only [process_pdf_task] at h
     split at h <;>
     · simp only [List.getLast?_cons_cons, List.getLast?_singleton,
         Option.some.injEq] at h
       subst h
       simp [PdfFail.err?, PdfFail.isAtInputRemove, mkPendingRecord])

/-- A concrete OCR worker run in which deleting the input file raises
(e.g. `PermissionError` on a locked file) after the completed fields were
already stored: one line was recognized, the output file was written, and
the input file existed when the guarded `os.remove` ran and raised. -/
def ocrRemoveFailRun : List (TaskRecord OcrTaskResult) × FsState :=
  process_ocr_task "t1" "uploads/in.png" "outputs/ocr/t1.txt"
    (some [some ⟨[[0, 0], [1, 0], [1, 1], [0, 1]], "hi", 9/10⟩]) 2
    (.atInputRemove "[Errno 13] Permission denied") (fun p => p == "uploads/in.png")

/-- C2 counterexample: in `ocrRemoveFailRun` the record left after the
worker finished has status failed yet a non-null result — the `except`
clause only overwrites `status` and `message`, so the claim "failed ⇒
result is null" is false on this concrete run. -/
theorem task_result_fields_counterexample :
    (ocrRemoveFailRun.1.getLast?).map (fun r => (r.status, r.result.isSome))
      = some (Status.failed, true) := rfl

/-- C2 (amended): for every task record left after a worker has finished,
across the three workers: if status is completed the result field is
non-null; if status is failed the message field is the raised exception's
description (in particular non-empty whenever that description is) and the
result field is null — unless the failure struck the input-file removal
that runs after the completed fields were already stored, in which case
the result remains the stored one. -/
theorem task_result_fields
    (idO imgP outFO : String) (rawO : Option (List (Option RawOcrLine))) (dO : ℚ)
    (failO : IoFail) (fsO : FsState)
    (idA audP outFA : String) (rawA : WhisperRaw) (lang : Option String)
    (cfgLang : String) (dA : ℚ) (failA : IoFail) (fsA : FsState)
    (idP pdfP outP : String) (sp ep : Option ℤ) (dpi : ℤ) (pc : ℕ)
    (doc : DocxDoc) (dP : ℚ) (failP : PdfFail) (fsP : FsState) :
    resultFieldsOk failO.err? failO.isAtInputRemove
      ((process_ocr_task idO imgP outFO rawO dO failO fsO).1.getLast?) ∧
    resultFieldsOk failA.err? failA.isAtInputRemove
      ((process_asr_task idA audP outFA rawA lang cfgLang dA failA fsA).1.getLast?) ∧
    resultFieldsOk failP.err? failP.isAtInputRemove
      ((process_pdf_task idP pdfP outP sp ep dpi pc doc dP failP fsP).1.getLast?) :=
  ⟨ocr_result_fields _ _ _ _ _ _ _, asr_result_fields _ _ _ _ _ _ _ _ _,
   pdf_result_fields _ _ _ _ _ _ _ _ _ _ _⟩

/-- Witness for `task_result_fields`: a concrete OCR run failing at the
backend call ends failed with a null result and the exception text as
message. -/
theorem task_result_fields_witness :
    (⟨"t", Status.failed, 3/10, "boom", none⟩ : TaskRecord OcrTaskResult).result = none ∧
    (∃ e, (IoFail.atBackend "boom").err? = some e ∧
      (⟨"t", Status.failed, 3/10, "boom", none⟩ : TaskRecord OcrTaskResult).message = e) := by
  have h := ((task_result_fields "t" "uploads/u.png" "outputs/ocr/t.txt" none 0
      (.atBackend "boom") (fun _ => false)
      "t2" "uploads/a.wav" "outputs/asr/t2.txt" ⟨"", none, []⟩ none "zh" 0 .ok
      (fun _ => false)
      "t3" "uploads/a.pdf" "outputs/t3.docx" none none 300 1 ⟨[], []⟩ 0 .ok
      (fun _ => false)).1
      ⟨"t", Status.failed, 3/10, "boom", none⟩ rfl).2 rfl
  exact ⟨h.2 rfl, h.1⟩

/-! ## C3: result-download gating -/

theorem download_404_unknown {ρ : Type} (getOut : ρ → String) {store : Store ρ}
    (fs : FsState) {id : String} (h : store id = none) :
    download_result_by_task getOut store fs id = .httpError 404 := by
  unfold download_result_by_task; rw [h]

theorem download_400_not_completed {ρ : Type} (getOut : ρ → String) {store : Store ρ}
    (fs : FsState) {id : String} {t : TaskRecord ρ} (h : store id = some t)
    (hne : t.status ≠ .completed) :
    download_result_by_task getOut store fs id = .httpError 400 := by
  unfold download_result_by_task; rw [h]; simp [hne]

theorem download_500_no_result {ρ : Type} (getOut : ρ → String) {store : Store ρ}
    (fs : FsState) {id : String} {t : TaskRecord ρ} (h : store id = some t)
    (hc : t.status = .completed) (hr : t.result = none) :
    download_result_by_task getOut store fs id = .httpError 500 := by
  unfold download_result_by_task; rw [h]; simp [hc, hr]

theorem download_404_missing {ρ : Type} (getOut : ρ → String) {store : Store ρ}
    {fs : FsState} {id : String} {t : TaskRecord ρ} {r : ρ} (h : store id = some t)
    (hc : t.status = .completed) (hr : t.result = some r)
    (hbad : getOut r = "" ∨ fs (getOut r) = false) :
    download_result_by_task getOut store fs id = .httpError 404 := by
  unfold download_result_by_task; rw [h]
  rcases hbad with hb | hb
  · simp [hc, hr, hb]
  · by_cases hempty : getOut r = "" <;> simp [hc, hr, hempty, hb]

theorem download_file_ok {ρ : Type} (getOut : ρ → String) {store : Store ρ}
    {fs : FsState} {id : String} {t : TaskRecord ρ} {r : ρ} (h : store id = some t)
    (hc : t.status = .completed) (hr : t.result = some r)
    (hne : getOut r ≠ "") (hfs : fs (getOut r) = true) :
    download_result_by_task getOut store fs id = .file (getOut r) := by
  unfold download_result_by_task; rw [h]; simp [hc, hr, hne, hfs]

theorem download_succeeds_iff {ρ : Type} (getOut : ρ → String) (store : Store ρ)
    (fs : FsState) (id : String) :
    (download_result_by_task getOut store fs id).succeeds = true ↔
      ∃ t r, store id = some t ∧ t.status = .completed ∧ t.result = some r ∧
        getOut r ≠ "" ∧ fs (getOut r) = true := by
  constructor
  · intro h
    rcases hst : store id with _ | t
    · rw [download_404_unknown getOut fs hst] at h
      simp [DownloadOutcome.succeeds] at h
    · by_cases hc : t.status = .completed
      · rcases hr : t.result with _ | r
        · rw [download_500_no_result getOut fs hst hc hr] at h
          simp [DownloadOutcome.succeeds] at h
        · by_cases hne : getOut r = ""
          · rw [download_404_missing getOut hst hc hr (Or.inl hne)] at h
            simp [DownloadOutcome.succeeds] at h
          · by_cases hfs : fs (getOut r) = true
            · exact ⟨t, r, rfl, hc, hr, hne, hfs⟩
            · rw [download_404_missing getOut hst hc hr
                (Or.inr (by simpa using hfs))] at h
              simp [DownloadOutcome.succeeds] at h
      · rw [download_400_not_completed getOut fs hst hc] at h
        simp [DownloadOutcome.succeeds] at h
  · rintro ⟨t, r, hst, hc, hr, hne, hfs⟩
    rw [download_file_ok getOut hst hc hr hne hfs]
    rfl

/-- Full behaviour of the task-id-keyed download endpoints (ASR and OCR):
success exactly when the task exists, is completed and references an
existing non-empty artifact path; 404 for an unknown id; 400 when not
completed; 404 when the artifact reference is empty or the file is
missing; and a success serves exactly the referenced artifact. -/
def downloadByTaskSpec {ρ : Type} (getOut : ρ → String) (store : Store ρ)
    (fs : FsState) (id : String) (out : DownloadOutcome) : Prop :=
  (out.succeeds = true ↔ ∃ t r, store id = some t ∧ t.status = .completed ∧
      t.result = some r ∧ getOut r ≠ "" ∧ fs (getOut r) = true) ∧
  (store id = none → out = .httpError 404) ∧
  (∀ t, store id = some t → t.status ≠ .completed → out = .httpError 400) ∧
  (∀ t r, store id = some t → t.status = .completed → t.result = some r →
    (getOut r = "" ∨ fs (getOut r) = false) → out = .httpError 404) ∧
  (∀ t r, store id = some t → t.status = .completed → t.result = some r →
    getOut r ≠ "" → fs (getOut r) = true → out = .file (getOut r))

theorem download_by_task_spec {ρ : Type} (getOut : ρ → String) (store : Store ρ)
    (fs : FsState) (id : String) :
    downloadByTaskSpec getOut store fs id (download_result_by_task getOut store fs id) :=
  ⟨download_succeeds_iff getOut store fs id,
   fun h => download_404_unknown getOut fs h,
   fun _ h hne => download_400_not_completed getOut fs h hne,
   fun _ _ h hc hr hbad => download_404_missing getOut h hc hr hbad,
   fun _ _ h hc hr hne hfs => download_file_ok getOut h hc hr hne hfs⟩

/-- A file system holding exactly one orphan artifact in the outputs
directory, with no task record anywhere referring to it. -/
def pdfOrphanFs : FsState := fun p => p == "outputs/orphan.docx"

/-- C3 counterexample: for the conversion capability the download endpoint
succeeds on `orphan.docx` although the task store is empty — no task is
completed (none even exists), falsifying "succeeds iff the task's status
is completed and the artifact exists" for that capability. -/
theorem download_result_gating_counterexample :
    ¬ ((pdf_download_result "outputs" pdfOrphanFs "orphan.docx").succeeds = true ↔
        ∃ t, emptyStore PdfTaskResult "orphan.docx" = some t ∧
          t.status = .completed) := by
  intro h
  obtain ⟨t, ht, _⟩ := h.mp rfl
  exact absurd ht (by simp [emptyStore])

/-- C3 (amended): for the transcription and recognition capabilities the
download endpoint succeeds iff the task exists, its status is completed
and the referenced output artifact file exists on storage — with 404 for
an unknown task id, 400 when the task is not completed and 404 when the
artifact reference is empty or the file is missing, and a success serving
the whole artifact file.  The conversion capability's download endpoint,
however, is keyed by an output file name, never consults the task store,
and succeeds iff `outputs/<filename>` exists (404 otherwise), regardless
of any task's status. -/
theorem download_result_gating
    (storeA : Store AsrTaskResult) (storeO : Store OcrTaskResult)
    (fs : FsState) (id dir name : String) :
    downloadByTaskSpec AsrTaskResult.output_file storeA fs id
      (asr_download_result storeA fs id) ∧
    downloadByTaskSpec OcrTaskResult.output_file storeO fs id
      (ocr_download_result storeO fs id) ∧
    ((pdf_download_result dir fs name).succeeds = true ↔
      fs (dir ++ "/" ++ name) = true) ∧
    (fs (dir ++ "/" ++ name) = false →
      pdf_download_result dir fs name = .httpError 404) ∧
    (fs (dir ++ "/" ++ name) = true →
      pdf_download_result dir fs name = .file (dir ++ "/" ++ name)) := by
  refine ⟨download_by_task_spec _ storeA fs id, download_by_task_spec _ storeO fs id,
    ?_, ?_, ?_⟩ <;>
  · unfold pdf_download_result
    by_cases h : fs (dir ++ "/" ++ name) = true <;>
      simp [h, DownloadOutcome.succeeds]

/-- Witness for `download_result_gating`: with a store holding one
completed ASR task whose artifact exists, the download serves that
artifact. -/
theorem download_result_gating_witness :
    asr_download_result
      (setTask (emptyStore AsrTaskResult) "t1"
        ⟨"t1", .completed, 1, "任务已创建", some ⟨"hello", "zh", 2, "outputs/asr/t1.txt"⟩⟩)
      (fun p => p == "outputs/asr/t1.txt") "t1"
      = .file "outputs/asr/t1.txt" := by
  have h := (download_result_gating
      (setTask (emptyStore AsrTaskResult) "t1"
        ⟨"t1", .completed, 1, "任务已创建", some ⟨"hello", "zh", 2, "outputs/asr/t1.txt"⟩⟩)
      (emptyStore OcrTaskResult)
      (fun p => p == "outputs/asr/t1.txt") "t1" "outputs" "x.docx").1.2.2.2.2
      ⟨"t1", .completed, 1, "任务已创建", some ⟨"hello", "zh", 2, "outputs/asr/t1.txt"⟩⟩
      ⟨"hello", "zh", 2, "outputs/asr/t1.txt"⟩
      (by simp [setTask]) rfl rfl (by decide) (by decide)
  exact h

/-! ## C4: upload validation -/

/-- C4 counterexample: a submission with unsupported extension `.xyz`
(saved as `uploads/u1.xyz`, the generated storage name preserving the
original extension) to the asynchronous recognition endpoint with the
service available is not rejected: the response is the pending task
record, the upload bytes are written to storage and the worker is
scheduled — although `.xyz` is not an allowed extension. -/
theorem upload_validation_counterexample :
    (recognize_image_async true "uploads/u1.xyz" "t1" (emptyStore OcrTaskResult)
        (fun _ => false)).response
      = .ok (mkPendingRecord OcrTaskResult "t1") ∧
    (recognize_image_async true "uploads/u1.xyz" "t1" (emptyStore OcrTaskResult)
        (fun _ => false)).fs "uploads/u1.xyz" = true ∧
    (recognize_image_async true "uploads/u1.xyz" "t1" (emptyStore OcrTaskResult)
        (fun _ => false)).scheduled = true ∧
    lowerStr (splitext "a.xyz").2 ∉ ALLOWED_EXTENSIONS := by
  refine ⟨rfl, by decide, rfl, by decide⟩

/-- C4 (amended): the synchronous recognition endpoint rejects an
unsupported file extension with HTTP 400 before any backend call and
before any byte is written (the file system is returned untouched and the
backend is never invoked); the asynchronous recognition endpoint performs
no extension validation at all — whenever the service is available it
writes the upload to storage and schedules the task, whatever the
extension. -/
theorem upload_validation (filename savedPath outF id : String)
    (raw : Option (List (Option RawOcrLine))) (d : ℚ) (fs : FsState)
    (store : Store OcrTaskResult)
    (hbad : lowerStr (splitext filename).2 ∉ ALLOWED_EXTENSIONS) :
    (recognize_image true filename savedPath outF raw d fs).response
        = .httpError 400 ∧
    (recognize_image true filename savedPath outF raw d fs).fs = fs ∧
    (recognize_image true filename savedPath outF raw d fs).backendCalled = false ∧
    (recognize_image_async true savedPath id store fs).response
        = .ok (mkPendingRecord OcrTaskResult id) ∧
    (recognize_image_async true savedPath id store fs).fs savedPath = true ∧
    (recognize_image_async true savedPath id store fs).scheduled = true := by
  refine ⟨?_, ?_, ?_, rfl, ?_, rfl⟩ <;>
    simp [recognize_image, recognize_image_async, hbad, setFile]

/-- Witness for `upload_validation` at the spec's example extension `.xyz`. -/
theorem upload_validation_witness :
    (recognize_image true "a.xyz" "uploads/u1.xyz" "outputs/ocr/o.txt" none 0
        (fun _ => false)).response = .httpError 400 :=
  (upload_validation "a.xyz" "uploads/u1.xyz" "outputs/ocr/o.txt" "t1" none 0
      (fun _ => false) (emptyStore OcrTaskResult) (by decide)).1

/-! ## C5: sync vs async payloads -/

/-- One concrete recognized line. -/
def exLine : RawOcrLine := ⟨[[0, 0], [1, 0], [1, 1], [0, 1]], "hi", 9/10⟩

/-- C5 counterexample: on the same backend output (one recognized line),
the synchronous recognition payload (a JSON array of per-line objects) and
the asynchronous task result (a JSON object with aggregated text,
confidence and output-file fields) differ even after removing timing
fields: the shapes are unequal. -/
theorem sync_async_payload_counterexample :
    stripTiming (ocrSyncJson (ocrSyncData (OcrService.recognize
        (some [some exLine]) 2)))
      ≠ stripTiming ((ocrAsyncResult (OcrService.recognize (some [some exLine]) 2)
          "outputs/ocr/t1.txt").toJ) := by
  intro h
  have hb : (true : Bool) = false := congrArg JVal.isArr h
  exact absurd hb (by decide)

/-- C5 (amended): the synchronous and asynchronous paths of each
capability invoke the same service computation on the same input, but the
exposed payloads are not equal modulo timing: for transcription they agree
on text and language while the async result adds the output-file
reference; for conversion they agree on page_count and word_count while
the sync payload names the artifact by bare file name and the async result
by full path; for recognition the async result aggregates the sync
payload — its text is the newline-join of the per-line texts — and the
shapes differ altogether. -/
theorem sync_async_payload_relation
    (rawA : WhisperRaw) (lang : Option String) (cfgLang : String) (dA : ℚ)
    (outFA outP name : String) (sp : ℤ) (ep : Option ℤ) (dpi : ℤ) (pc : ℕ)
    (doc : DocxDoc) (dP : ℚ)
    (rawO : Option (List (Option RawOcrLine))) (dO : ℚ) (outFO : String) :
    (asrAsyncResult (AsrService.transcribe rawA lang cfgLang dA) outFA).text
        = (asrSyncData (AsrService.transcribe rawA lang cfgLang dA)).text ∧
    (asrAsyncResult (AsrService.transcribe rawA lang cfgLang dA) outFA).language
        = (asrSyncData (AsrService.transcribe rawA lang cfgLang dA)).language ∧
    (asrAsyncResult (AsrService.transcribe rawA lang cfgLang dA) outFA).output_file
        = outFA ∧
    (pdfAsyncResult (PdfService.convert outP sp ep dpi pc doc dP)).page_count
        = (pdfSyncData (PdfService.convert outP sp ep dpi pc doc dP) name).page_count ∧
    (pdfAsyncResult (PdfService.convert outP sp ep dpi pc doc dP)).word_count
        = (pdfSyncData (PdfService.convert outP sp ep dpi pc doc dP) name).word_count ∧
    (pdfSyncData (PdfService.convert outP sp ep dpi pc doc dP) name).output_path
        = name ∧
    (pdfAsyncResult (PdfService.convert outP sp ep dpi pc doc dP)).output_path
        = outP ∧
    (ocrAsyncResult (OcrService.recognize rawO dO) outFO).text
        = String.intercalate "\n"
            ((ocrSyncData (OcrService.recognize rawO dO)).map (fun r => r.text)) ∧
    (ocrAsyncResult (OcrService.recognize rawO dO) outFO).confidence
        = (OcrService.recognize rawO dO).confidence := by
  refine ⟨rfl, rfl, rfl, rfl, rfl, rfl, rfl, ?_, rfl⟩
  simp only [ocrAsyncResult, ocrSyncData, OcrService.recognize, List.map_map]
  congr 1

/-! ## C6: availability probes -/

/-- An environment in which every backend dependency works except
`pdf2docx`, which is not importable. -/
def envNoPdf : PyEnv := ⟨false, true, true, true, true, true⟩

/-- An environment in which every backend dependency works. -/
def envWithPdf : PyEnv := ⟨true, true, true, true, true, true⟩

/-- C6 counterexample: `PdfService.is_available` executes `import
pdf2docx` on every call (`attemptedBackendLoad = true`) and is not a
function of any state cached at construction — the facade caches nothing,
and the call's value differs across two process instants (the dependency
absent, then installed), so no function of the (trivial) cached state can
describe it; in particular a load failure is retried on the next call
rather than being permanent. -/
theorem availability_caching_counterexample :
    (PdfService.is_available envNoPdf).value = false ∧
    (PdfService.is_available envWithPdf).value = true ∧
    (PdfService.is_available envNoPdf).attemptedBackendLoad = true ∧
    ¬ ∃ g : Unit → Bool, ∀ env : PyEnv,
        (PdfService.is_available env).value = g () := by
  refine ⟨rfl, rfl, rfl, ?_⟩
  rintro ⟨g, hg⟩
  have h : (PdfService.is_available envNoPdf).value
      = (PdfService.is_available envWithPdf).value :=
    (hg envNoPdf).trans (hg envWithPdf).symm
  exact absurd h (by decide)

/-- C6 (amended): the ASR and OCR facades behave as claimed — their
`is_available` reads only state cached at first construction, performs
no import or probe, and a load failure at construction leaves it false for
the rest of the process (its value does not depend on the later
environment).  The PDF facade's `is_available`, however, executes `import
pdf2docx` on every call and its value tracks the current environment, so
a load failure there is retried on demand. -/
theorem availability_caching (env envNow envNow2 : PyEnv) :
    (OcrService.is_available (OcrService.load env)).attemptedBackendLoad = false ∧
    ((OcrService.is_available (OcrService.load env)).value = true ↔
      env.paddleImportable = true ∧ env.paddleLoadOk = true) ∧
    (AsrService.is_available (AsrService.load env) envNow).attemptedBackendLoad
        = false ∧
    (AsrService.is_available (AsrService.load env) envNow)
        = (AsrService.is_available (AsrService.load env) envNow2) ∧
    ((AsrService.is_available (AsrService.load env) envNow).value = true ↔
      env.whisperImportable = true ∧ env.whisperLoadOk = true ∧
        env.ffmpegWorks = true) ∧
    (PdfService.is_available envNow).attemptedBackendLoad = true ∧
    (PdfService.is_available envNow).value = envNow.pdf2docxImportable := by
  obtain ⟨pd, wi, wl, ff, pi, pl⟩ := env
  cases wi <;> cases wl <;> cases ff <;> cases pi <;> cases pl <;>
    simp [OcrService.load, OcrService.is_available, AsrService.load,
      AsrService.is_available, PdfService.is_available]

/-- Witness for `availability_caching`: with every dependency loadable at
construction, the ASR facade reports availability later even if ffmpeg
has meanwhile vanished from the environment — the cached probe answers. -/
theorem availability_caching_witness :
    (AsrService.is_available (AsrService.load envWithPdf)
      ⟨true, true, true, false, true, true⟩).value = true := by
  have h := (availability_caching envWithPdf ⟨true, true, true, false, true, true⟩
      envNoPdf).2.2.2.2.1
  exact h.mpr ⟨rfl, rfl, rfl⟩

/-! ## C7: page range semantics -/

theorem pageSpan_mem (start stop p : ℤ) :
    p ∈ pageSpan start stop ↔ start ≤ p ∧ p < stop := by
  unfold pageSpan
  simp only [List.mem_map, List.mem_range]
  constructor
  · rintro ⟨i, hi, rfl⟩
    omega
  · rintro ⟨h1, h2⟩
    exact ⟨(p - start).toNat, by omega, by omega⟩

/-- C7: the converted page range is inclusive on both ends; an unspecified
`end_page` defaults to `page_count - 1`; and on a 3-page document with
`start_page = 0, end_page = 1` the conversion reports `page_count = 3` and
converts exactly pages 0 through 1, i.e. 2 pages. -/
theorem page_range_semantics (outP : String) (startPage : ℤ) (endPage : Option ℤ)
    (dpi : ℤ) (pc : ℕ) (doc : DocxDoc) (d : ℚ) :
    (PdfService.convert outP startPage endPage dpi pc doc d).page_count = pc ∧
    (PdfService.convert outP startPage endPage dpi pc doc d).converted_pages
        = endPage.getD ((pc : ℤ) - 1) - startPage + 1 ∧
    (∀ p : ℤ, p ∈ PdfService.convertedSpan startPage endPage pc ↔
      startPage ≤ p ∧ p ≤ endPage.getD ((pc : ℤ) - 1)) ∧
    (PdfService.convert outP 0 (some 1) dpi 3 doc d).page_count = 3 ∧
    (PdfService.convert outP 0 (some 1) dpi 3 doc d).converted_pages = 2 ∧
    PdfService.convertedSpan 0 (some 1) 3 = [0, 1] := by
  refine ⟨rfl, rfl, ?_, rfl, rfl, ?_⟩
  · intro p
    unfold PdfService.convertedSpan
    rw [pageSpan_mem]
    omega
  · decide

/-- Witness for `page_range_semantics`: page 1 lies in the converted range
of the 3-page example. -/
theorem page_range_semantics_witness :
    (1 : ℤ) ∈ PdfService.convertedSpan 0 (some 1) 3 :=
  ((page_range_semantics "o.docx" 0 (some 1) 300 3 ⟨[], []⟩ 0).2.2.1 1).mpr
    (by decide)

/-! ## C8: aggregate confidence -/

/-- `round(2/3, 4)` on exact rationals is `0.6667`. -/
theorem round4_two_thirds : round4 (2/3) = 6667/10000 := by
  have hf : ⌊(2/3 : ℚ) * 10000⌋ = 6666 := by
    rw [Int.floor_eq_iff]
    norm_num
  simp only [round4, pyRound, hf]
  norm_num

/-- A backend output of three detected lines with confidences 1, 1, 0. -/
def threeLines : Option (List (Option RawOcrLine)) :=
  some [some ⟨[[0, 0]], "a", 1⟩, some ⟨[[0, 0]], "b", 1⟩, some ⟨[[0, 0]], "c", 0⟩]

/-- C8 counterexample: with per-line confidences 1, 1, 0 the arithmetic
mean is 2/3, but the reported aggregate is `round(2/3, 4) = 0.6667 ≠ 2/3`
— the code rounds the mean to 4 decimal places, so the aggregate does not
equal the mean (neither of the raw nor of the reported per-line
confidences, which here coincide). -/
theorem aggregate_confidence_counterexample :
    (OcrService.recognize threeLines 0).confidence = 6667/10000 ∧
    (OcrService.recognize threeLines 0).confidence ≠ ((1 : ℚ) + 1 + 0) / 3 := by
  have hc : (OcrService.recognize threeLines 0).confidence = round4 (2/3) := by
    simp [OcrService.recognize, detectedLines, threeLines]
    norm_num
  rw [hc, round4_two_thirds]
  constructor
  · rfl
  · norm_num

/-- C8 (amended): the aggregate confidence equals the arithmetic mean of
the detected per-line confidences rounded to 4 decimal places (Python
`round(·, 4)`), and equals 0 when no lines are detected. -/
theorem aggregate_confidence (raw : Option (List (Option RawOcrLine))) (d : ℚ) :
    (detectedLines raw ≠ [] →
      (OcrService.recognize raw d).confidence
        = round4 (((detectedLines raw).map (fun l => l.confidence)).sum
            / ((detectedLines raw).length : ℚ))) ∧
    (detectedLines raw = [] → (OcrService.recognize raw d).confidence = 0) := by
  constructor
  · intro h
    simp only [OcrService.recognize]
    rw [if_pos (List.length_pos.mpr h)]
  · intro h
    simp [OcrService.recognize, h, round4, pyRound]

/-- Witness for `aggregate_confidence` at the three-line backend output. -/
theorem aggregate_confidence_witness :
    (OcrService.recognize threeLines 0).confidence
      = round4 (((detectedLines threeLines).map (fun l => l.confidence)).sum
          / ((detectedLines threeLines).length : ℚ)) :=
  (aggregate_confidence threeLines 0).1 (by decide)

/-! ## C9: input-asset cleanup on completion -/

/-- What C9 requires of a finished worker run: if it ended completed, the
input asset is absent, the output artifact exists, and the completed
record (carrying the task id) remains retrievable from any registry it is
written to — no code path ever deletes a record. -/
def cleanupOk {ρ : Type} (run : List (TaskRecord ρ) × FsState)
    (inputP outputP id : String) : Prop :=
  run.1.getLast?.map TaskRecord.status = some .completed →
    run.2 inputP = false ∧ run.2 outputP = true ∧
    ∃ rec, run.1.getLast? = some rec ∧ rec.status = .completed ∧
      rec.task_id = id ∧ ∀ store : Store ρ, setTask store id rec id = some rec

theorem ocr_cleanup (id imgP outF : String)
    (raw : Option (List (Option RawOcrLine))) (d : ℚ) (fail : IoFail) (fs : FsState)
    (hex : fs imgP = true) (hneq : imgP ≠ outF) :
    cleanupOk (process_ocr_task id imgP outF raw d fail fs) imgP outF id := by
  intro h
  cases fail with
  | atBackend e => simp [process_ocr_task] at h
  | atOutputWrite e => simp [process_ocr_task] at h
  | atInputRemove e =>
    have hW : setFile fs outF imgP = true := by
      simp [setFile, hex]
    rw [process_ocr_task] at h
    rw [if_pos hW] at h
    simp at h
  | ok =>
    refine ⟨by simp [process_ocr_task, rmFile], ?_, ?_⟩
    · simp [process_ocr_task, rmFile, setFile, Ne.symm hneq]
    · exact ⟨_, rfl, rfl, rfl, fun store => by simp [setTask]⟩

theorem asr_cleanup (id audP outF : String) (raw : WhisperRaw)
    (lang : Option String) (cfgLang : String) (d : ℚ) (fail : IoFail) (fs : FsState)
    (hex : fs audP = true) (hneq : audP ≠ outF) :
    cleanupOk (process_asr_task id audP outF raw lang cfgLang d fail fs)
      audP outF id := by
  intro h
  cases fail with
  | atBackend e => simp [process_asr_task] at h
  | atOutputWrite e => simp [process_asr_task] at h
  | atInputRemove e =>
    have hW : setFile fs outF audP = true := by
      simp [setFile, hex]
    rw [process_asr_task] at h
    rw [if_pos hW] at h
    simp at h
  | ok =>
    refine ⟨by simp [process_asr_task, rmFile], ?_, ?_⟩
    · simp [process_asr_task, rmFile, setFile, Ne.symm hneq]
    · exact ⟨_, rfl, rfl, rfl, fun store => by simp [setTask]⟩

theorem pdf_cleanup (id pdfP outP : String) (sp ep : Option ℤ) (dpi : ℤ)
    (pc : ℕ) (doc : DocxDoc) (d : ℚ) (fail : PdfFail) (fs : FsState)
    (hex : fs pdfP = true) (hneq : pdfP ≠ outP) :
    cleanupOk (process_pdf_task id pdfP outP sp ep dpi pc doc d fail fs)
      pdfP outP id := by
  intro h
  cases fail with
  | atBackend e => simp [process_pdf_task] at h
  | atInputRemove e =>
    have hW : setFile fs outP pdfP = true := by
      simp [setFile, hex]
    rw [process_pdf_task] at h
    rw [if_pos hW] at h
    simp at h
  | ok =>
    refine ⟨by simp [process_pdf_task, rmFile], ?_, ?_⟩
    · simp [process_pdf_task, rmFile, setFile, Ne.symm hneq]
    · exact ⟨_, rfl, rfl, rfl, fun store => by simp [setTask]⟩

/-- C9: for every asynchronous task whose input asset exists on storage
before the worker starts, if the task ends completed then the input asset
is absent afterwards while the produced output artifact and the task
record remain in place — for the OCR, ASR and PDF workers (input and
output live at distinct paths: a fresh uuid name under `uploads/` versus a
path under `outputs/`). -/
theorem input_cleanup_on_completion
    (idO imgP outFO : String) (rawO : Option (List (Option RawOcrLine))) (dO : ℚ)
    (failO : IoFail) (fsO : FsState)
    (idA audP outFA : String) (rawA : WhisperRaw) (lang : Option String)
    (cfgLang : String) (dA : ℚ) (failA : IoFail) (fsA : FsState)
    (idP pdfP outP : String) (sp ep : Option ℤ) (dpi : ℤ) (pc : ℕ)
    (doc : DocxDoc) (dP : ℚ) (failP : PdfFail) (fsP : FsState)
    (hexO : fsO imgP = true) (hneqO : imgP ≠ outFO)
    (hexA : fsA audP = true) (hneqA : audP ≠ outFA)
    (hexP : fsP pdfP = true) (hneqP : pdfP ≠ outP) :
    cleanupOk (process_ocr_task idO imgP outFO rawO dO failO fsO) imgP outFO idO ∧
    cleanupOk (process_asr_task idA audP outFA rawA lang cfgLang dA failA fsA)
      audP outFA idA ∧
    cleanupOk (process_pdf_task idP pdfP outP sp ep dpi pc doc dP failP fsP)
      pdfP outP idP :=
  ⟨ocr_cleanup _ _ _ _ _ _ _ hexO hneqO,
   asr_cleanup _ _ _ _ _ _ _ _ _ hexA hneqA,
   pdf_cleanup _ _ _ _ _ _ _ _ _ _ _ hexP hneqP⟩

/-- Witness for `input_cleanup_on_completion`: a concrete successful ASR
run deletes `uploads/in.wav` and leaves `outputs/asr/t2.txt`. -/
theorem input_cleanup_on_completion_witness :
    (process_asr_task "t2" "uploads/in.wav" "outputs/asr/t2.txt" ⟨"hi", none, []⟩
        none "zh" 1 .ok (fun p => p == "uploads/in.wav")).2 "uploads/in.wav" = false ∧
    (process_asr_task "t2" "uploads/in.wav" "outputs/asr/t2.txt" ⟨"hi", none, []⟩
        none "zh" 1 .ok (fun p => p == "uploads/in.wav")).2 "outputs/asr/t2.txt"
      = true := by
  have h := (input_cleanup_on_completion
      "t1" "uploads/in.png" "outputs/ocr/t1.txt" none 0 .ok
      (fun p => p == "uploads/in.png")
      "t2" "uploads/in.wav" "outputs/asr/t2.txt" ⟨"hi", none, []⟩ none "zh" 1 .ok
      (fun p => p == "uploads/in.wav")
      "t3" "uploads/in.pdf" "outputs/t3.docx" none none 300 1 ⟨[], []⟩ 0 .ok
      (fun p => p == "uploads/in.pdf")
      (by decide) (by decide) (by decide) (by decide) (by decide) (by decide)).2.1
      rfl
  exact ⟨h.1, h.2.1⟩

/-! ## C10: per-capability task registries -/

/-- The application state: `main.py` mounts the three routers, each with
its own module-level `tasks_store` dictionary. -/
structure AppStores where
  asrTasks : Store AsrTaskResult
  ocrTasks : Store OcrTaskResult
  pdfTasks : Store PdfTaskResult

/-- The OCR async submission at application level: it touches only the
OCR router's store. -/
def appSubmitOcr (s : AppStores) (savedPath id : String) (fs : FsState) : AppStores :=
  { s with ocrTasks := (recognize_image_async true savedPath id s.ocrTasks fs).store }

/-- The ASR async submission at application level. -/
def appSubmitAsr (s : AppStores) (savedPath id : String) (fs : FsState) : AppStores :=
  { s with asrTasks := (transcribe_audio_async true savedPath id s.asrTasks fs).store }

/-- The PDF async submission at application level. -/
def appSubmitPdf (s : AppStores) (savedPath id : String) (fs : FsState) : AppStores :=
  { s with pdfTasks := (convert_pdf_async true savedPath id s.pdfTasks fs).store }

/-- C10: task registries are per capability — an id created by one
capability's asynchronous submission lands only in that capability's
in-memory map, so while its own status endpoint returns the (pending,
progressing) record, the other two capabilities' status endpoints answer
404 for the same id.  Stated for all three submission directions, for any
id unknown to the other stores (ids are fresh uuids). -/
theorem per_capability_task_registry (s : AppStores) (savedPath id : String)
    (fs : FsState) (hA : s.asrTasks id = none) (hO : s.ocrTasks id = none)
    (hP : s.pdfTasks id = none) :
    ((appSubmitOcr s savedPath id fs).ocrTasks id
        = some (mkPendingRecord OcrTaskResult id) ∧
      (appSubmitOcr s savedPath id fs).asrTasks = s.asrTasks ∧
      (appSubmitOcr s savedPath id fs).pdfTasks = s.pdfTasks ∧
      get_task_status (appSubmitOcr s savedPath id fs).ocrTasks id
        = .ok (mkPendingRecord OcrTaskResult id) ∧
      get_task_status (appSubmitOcr s savedPath id fs).asrTasks id
        = .httpError 404 ∧
      get_task_status (appSubmitOcr s savedPath id fs).pdfTasks id
        = .httpError 404) ∧
    ((appSubmitAsr s savedPath id fs).asrTasks id
        = some (mkPendingRecord AsrTaskResult id) ∧
      (appSubmitAsr s savedPath id fs).ocrTasks = s.ocrTasks ∧
      (appSubmitAsr s savedPath id fs).pdfTasks = s.pdfTasks ∧
      get_task_status (appSubmitAsr s savedPath id fs).asrTasks id
        = .ok (mkPendingRecord AsrTaskResult id) ∧
      get_task_status (appSubmitAsr s savedPath id fs).ocrTasks id
        = .httpError 404 ∧
      get_task_status (appSubmitAsr s savedPath id fs).pdfTasks id
        = .httpError 404) ∧
    ((appSubmitPdf s savedPath id fs).pdfTasks id
        = some (mkPendingRecord PdfTaskResult id) ∧
      (appSubmitPdf s savedPath id fs).asrTasks = s.asrTasks ∧
      (appSubmitPdf s savedPath id fs).ocrTasks = s.ocrTasks ∧
      get_task_status (appSubmitPdf s savedPath id fs).pdfTasks id
        = .ok (mkPendingRecord PdfTaskResult id) ∧
      get_task_status (appSubmitPdf s savedPath id fs).asrTasks id
        = .httpError 404 ∧
      get_task_status (appSubmitPdf s savedPath id fs).ocrTasks id
        = .httpError 404) := by
  refine ⟨⟨?_, rfl, rfl, ?_, ?_, ?_⟩, ⟨?_, rfl, rfl, ?_, ?_, ?_⟩,
    ⟨?_, rfl, rfl, ?_, ?_, ?_⟩⟩ <;>
    simp [appSubmitOcr, appSubmitAsr, appSubmitPdf, recognize_image_async,
      transcribe_audio_async, convert_pdf_async, get_task_status, setTask,
      hA, hO, hP]

/-- Witness for `per_capability_task_registry`: after an OCR submission of
id `t1` into empty registries, the ASR status endpoint answers 404 for
`t1` while the OCR one returns the pending record. -/
theorem per_capability_task_registry_witness :
    get_task_status (appSubmitOcr
        ⟨emptyStore AsrTaskResult, emptyStore OcrTaskResult, emptyStore PdfTaskResult⟩
        "uploads/u.png" "t1" (fun _ => false)).asrTasks "t1"
      = .httpError 404 ∧
    get_task_status (appSubmitOcr
        ⟨emptyStore AsrTaskResult, emptyStore OcrTaskResult, emptyStore PdfTaskResult⟩
        "uploads/u.png" "t1" (fun _ => false)).ocrTasks "t1"
      = .ok (mkPendingRecord OcrTaskResult "t1") := by
  have h := (per_capability_task_registry
      ⟨emptyStore AsrTaskResult, emptyStore OcrTaskResult, emptyStore PdfTaskResult⟩
      "uploads/u.png" "t1" (fun _ => false) rfl rfl rfl).1
  exact ⟨h.2.2.2.2.1, h.2.2.2.1⟩

end OfficeTools
